import Mathlib

/-
Verification development for the tautulli-map-viewer repository.

The definitions below are a shallow embedding of the JavaScript source:
  - src/js/app.js        (timeline builder, playback state machine, refresh cycle)
  - src/js/tautulli-api.js (live stream processing, history fetching, stats aggregator)
  - the Leaflet map manager (marker/connection bookkeeping, offset calculator)

JavaScript numbers holding millisecond timestamps, durations and counts are
modelled as Int or Nat; latitudes/longitudes as real numbers; a JavaScript
value that may be undefined is modelled as an Option.  External collaborators
(the upstream session-source API, the geolocation resolver, Math.random and
the locale-dependent Date formatting) are modelled as explicit parameters.
-/

namespace Tautulli

/-- A JavaScript numeric value that may be undefined (Option.none). -/
abbrev JSNum := Option Int

/-- JavaScript comparison a less-or-equal b: any comparison involving undefined is false. -/
def jsLE : JSNum → JSNum → Bool
  | Option.some a, Option.some b => decide (a ≤ b)
  | _, _ => false

/-- JavaScript string defaulting a-or-else-b: undefined and the empty string are falsy. -/
def jsStrOr (a : Option String) (b : String) : String :=
  match a with
  | Option.some s => if s = "" then b else s
  | Option.none => b

/-- JavaScript numeric defaulting a-or-else-b: undefined and 0 are falsy. -/
def jsNumOr (a : Option Int) (b : Int) : Int :=
  match a with
  | Option.some v => if v = 0 then b else v
  | Option.none => b

/-- JavaScript numeric defaulting against 0, as in a-or-zero. -/
def jsNumOrZero (a : Option Int) : Int :=
  jsNumOr a 0

/-- A resolved geographic location as produced by the geolocation code paths. -/
structure Location where
  lat : ℝ
  lon : ℝ
  city : String
  region : String
  country : String
  isp : String

/-- A processed historical session as produced by getHistoryDays in
src/js/tautulli-api.js (only the fields the verified claims read). -/
structure HSession where
  username : String
  location : Location
  startTime : Int
  stopTime : Int
  duration : Int
  pausedDuration : Int
  watchedDuration : Int

/-! ## Timeline builder (createHistoryTimeline, src/js/app.js lines 476-509) -/

/-- One hour in milliseconds, the densification step of createHistoryTimeline. -/
def hourMs : Int := 3600000

/-- The hourly checkpoints inserted strictly between two consecutive timeline
instants a and b when their gap exceeds one hour.  Models the inner while
loop of createHistoryTimeline: it pushes a+hourMs, a+2*hourMs, ... while the
value stays strictly below b, and runs only when b - a > hourMs. -/
def hourlyPoints (a b : Int) : List Int :=
  if hourMs < b - a then
    (List.range ((b - a - 1) / hourMs).toNat).map (fun k => a + hourMs * ((k : Int) + 1))
  else []

/-- The main for loop of createHistoryTimeline: for each index i up to
length - 2 it pushes timeline[i] followed by the hourly checkpoints between
timeline[i] and timeline[i+1].  The loop body never runs for a list with
fewer than two elements. -/
def densifyTimeline : List Int → List Int
  | a :: b :: rest => (a :: hourlyPoints a b) ++ densifyTimeline (b :: rest)
  | _ => []

/-- The deduplicated, ascending list of all startTime and stopTime values of
the batch (the JavaScript Set of timestamps followed by the numeric sort). -/
def timelineTimestamps (data : List HSession) : List Int :=
  List.insertionSort (fun a b => a ≤ b)
    ((data.foldl (fun acc s => acc ++ [s.startTime, s.stopTime]) []).dedup)

/-- createHistoryTimeline from src/js/app.js: sorted unique timestamps,
densified with hourly checkpoints, followed by the unconditional final push
of timeline[timeline.length - 1] - which is the JavaScript undefined value
(modelled Option.none) when the timestamp list is empty. -/
def createHistoryTimeline (data : List HSession) : List JSNum :=
  let timeline := timelineTimestamps data
  (densifyTimeline timeline).map Option.some ++ [timeline.get? (timeline.length - 1)]

/-! ## Playback state machine (src/js/app.js lines 281-552) -/

/-- The two view modes of the application. -/
inductive Mode where
  | live : Mode
  | history : Mode
  deriving DecidableEq

/-- The mutable playback fields of app.js historyPlayback (the timer handle is
identified with isPlaying: both are set and cleared together). -/
structure PlaybackState where
  isPlaying : Bool
  currentIndex : Int
  deriving DecidableEq

/-- What a call to showHistoryFrame renders to the map / time display. -/
inductive Emission where
  | nothing : Emission
  | allSessions : Emission
  | frame : List HSession → JSNum → Emission

/-- The sessions active at instant t: the filter inside showHistoryFrame,
session.startTime less-or-equal t and session.stopTime greater-or-equal t. -/
def activeSessionsAt (data : List HSession) (t : JSNum) : List HSession :=
  data.filter (fun s => jsLE (Option.some s.startTime) t && jsLE t (Option.some s.stopTime))

/-- showHistoryFrame from src/js/app.js lines 281-319: in history mode index 0
renders every session; an in-range index stores the index and emits the
active-session snapshot at timeline[index]; any other index does nothing. -/
def showHistoryFrame (mode : Mode) (data : List HSession) (timeline : List JSNum)
    (st : PlaybackState) (index : Int) : PlaybackState × Emission :=
  if mode = Mode.history ∧ index = 0 then (st, Emission.allSessions)
  else if 0 ≤ index ∧ index < (timeline.length : Int) then
    let currentTime := timeline.getD index.toNat Option.none
    ({ st with currentIndex := index },
      Emission.frame (activeSessionsAt data currentTime) currentTime)
  else (st, Emission.nothing)

/-- seekPlayback from src/js/app.js lines 550-552: it simply delegates to
showHistoryFrame. -/
def seekPlayback (mode : Mode) (data : List HSession) (timeline : List JSNum)
    (st : PlaybackState) (index : Int) : PlaybackState × Emission :=
  showHistoryFrame mode data timeline st index

/-- togglePlayback from src/js/app.js lines 511-541, projected onto state:
flips isPlaying (and with it the interval timer). -/
def togglePlayback (st : PlaybackState) : PlaybackState :=
  if st.isPlaying then { st with isPlaying := false } else { st with isPlaying := true }

/-- One tick of the playback interval timer (the setInterval body installed by
togglePlayback).  The timer only runs while isPlaying, so a stopped state is
left unchanged.  Note the end-of-data test compares the incremented index
against data.length (this.historyData.length in the source), not against the
timeline length. -/
def advanceTick (mode : Mode) (data : List HSession) (timeline : List JSNum)
    (st : PlaybackState) : PlaybackState × Emission :=
  if st.isPlaying then
    let st1 : PlaybackState := { st with currentIndex := st.currentIndex + 1 }
    if (data.length : Int) ≤ st1.currentIndex then
      ({ togglePlayback st1 with currentIndex := 0 }, Emission.nothing)
    else
      showHistoryFrame mode data timeline st1 st1.currentIndex
  else (st, Emission.nothing)

/-- n successive playback ticks, keeping only the state. -/
def advanceN (mode : Mode) (data : List HSession) (timeline : List JSNum) :
    Nat → PlaybackState → PlaybackState
  | 0, st => st
  | n + 1, st => advanceN mode data timeline n (advanceTick mode data timeline st).1

/-- Modelled from the spec: clamp(i, 0, len - 1), the index update the
specification prescribes for seek. -/
def clampIdx (i : Int) (len : Nat) : Int :=
  max 0 (min i ((len : Int) - 1))

/-! ## Concrete inputs used by counterexamples and witnesses -/

/-- A dummy location (coordinates at the origin, empty labels). -/
def locZ : Location := ⟨0, 0, "", "", "", ""⟩

/-- A session that starts and stops at instant 0. -/
def sZ : HSession := ⟨"u", locZ, 0, 0, 0, 0, 0⟩

/-- Two sessions with identical start and stop instants: their timeline has a
single entry while the data batch has two. -/
def c1data : List HSession := [sZ, sZ]

/-- A session active exactly at instant 5 (startTime = stopTime = 5). -/
def sB5 : HSession := ⟨"u", locZ, 5, 5, 0, 0, 0⟩

/-- A three-entry timeline used to exercise seek out-of-range behaviour. -/
def tl3 : List JSNum := [Option.some 10, Option.some 20, Option.some 30]

/-! ## Marker offset calculator (calculateOffset, map manager lines 156-166) -/

/-- The fixed ring radius of calculateOffset. -/
noncomputable def offsetRadius : ℝ := 0.002

/-- calculateOffset from the Leaflet map manager: no offset for a single
record, otherwise the point at angle 2 pi index / total on the fixed-radius
ring, with the longitude component elongated by the factor 1.5. -/
noncomputable def calculateOffset (index total : Nat) : ℝ × ℝ :=
  if total = 1 then (0, 0)
  else
    (offsetRadius * Real.sin (2 * Real.pi * index / total),
     offsetRadius * Real.cos (2 * Real.pi * index / total) * 1.5)

/-- Modelled from the spec: total = 1 gives the zero offset, otherwise dLat is
r times sin of the angle 2 pi index / total and dLon is 1.5 times r times cos
of that angle. -/
noncomputable def offsetSpecRing (index total : Nat) : ℝ × ℝ :=
  if total = 1 then (0, 0)
  else
    (offsetRadius * Real.sin (2 * Real.pi * index / total),
     1.5 * (offsetRadius * Real.cos (2 * Real.pi * index / total)))

/-! ## Live stream processing (getActiveStreams, src/js/tautulli-api.js lines 119-204) -/

/-- isLocalIP from src/js/tautulli-api.js lines 111-117. -/
def isLocalIP (ip : String) : Bool :=
  ip == "127.0.0.1" || ip == "localhost" ||
    ip.startsWith "192.168." || ip.startsWith "10." || ip.startsWith "172."

/-- getGeoIP projected onto its result: local addresses are never resolved;
for the rest the external resolver (cache or upstream lookup) is modelled by
the geoLookup parameter. -/
def getGeoIP (geoLookup : String → Option Location) (ip : String) : Option Location :=
  if isLocalIP ip then Option.none else geoLookup ip

/-- The synthesized fallback location for a live session without geolocation
(src/js/tautulli-api.js lines 143-154): the point at angle
2 pi index / batchSize on the ring of radius 0.01 around the server. -/
noncomputable def synthLiveLocation (serverLat serverLon : ℝ) (isLocal : Bool) (i n : Nat) : Location :=
  { lat := serverLat + 0.01 * Real.sin (2 * Real.pi * i / n)
    lon := serverLon + 0.01 * Real.cos (2 * Real.pi * i / n)
    city := if isLocal then "Local Network" else "Unknown"
    region := ""
    country := if isLocal then "LAN" else "Unknown"
    isp := if isLocal then "Local Network" else "Unknown ISP" }

/-- A raw record of the live activity feed (the fields the embedding reads). -/
structure LiveRaw where
  session_key : Option String
  username : Option String
  friendly_name : Option String
  ip_address : String
  started : Option Int
  deriving DecidableEq

/-- A processed live stream (the fields the verified claims read). -/
structure LiveStream where
  sessionKey : String
  username : String
  location : Location

/-- The unique session key built in getActiveStreams lines 158-160; now models
Date.now(). -/
def liveSessionKey (raw : LiveRaw) (now : Int) (i : Nat) : String :=
  match raw.session_key with
  | Option.some k =>
      if k = "" then "session-" ++ toString now ++ "-" ++ toString i
      else k ++ "-" ++ toString (jsNumOr raw.started now) ++ "-" ++ toString i
  | Option.none => "session-" ++ toString now ++ "-" ++ toString i

/-- The per-session mapping inside getActiveStreams: resolved geolocation when
available, otherwise the synthesized ring placement. -/
noncomputable def processLiveSession (serverLat serverLon : ℝ) (geoLookup : String → Option Location)
    (now : Int) (n : Nat) (i : Nat) (raw : LiveRaw) : LiveStream :=
  let geoData :=
    match getGeoIP geoLookup raw.ip_address with
    | Option.some g => g
    | Option.none => synthLiveLocation serverLat serverLon (isLocalIP raw.ip_address) i n
  { sessionKey := liveSessionKey raw now i
    username := jsStrOr raw.friendly_name (jsStrOr raw.username "Unknown User")
    location := geoData }

/-- The outcome of one poll of the upstream activity feed: a session batch, an
activity object without sessions, or a failed fetch. -/
inductive FetchOutcome where
  | ok : List LiveRaw → FetchOutcome
  | noSessions : FetchOutcome
  | fetchError : FetchOutcome

/-- getActiveStreams from src/js/tautulli-api.js: a missing activity object
and a fetch error both produce the empty stream list (the catch block returns
an empty array); a session batch is mapped through processLiveSession. -/
noncomputable def getActiveStreams (serverLat serverLon : ℝ) (geoLookup : String → Option Location)
    (now : Int) (outcome : FetchOutcome) : List LiveStream :=
  match outcome with
  | FetchOutcome.ok sessions =>
      sessions.enum.map (fun p => processLiveSession serverLat serverLon geoLookup now
        sessions.length p.1 p.2)
  | FetchOutcome.noSessions => []
  | FetchOutcome.fetchError => []

/-! ## Marker bookkeeping (updateStreams, map manager lines 84-145) -/

/-- The evolution of the marker-map key list under updateStreams: keys absent
from the current batch are removed, then every stream of the batch is added
(an existing key keeps its position, a new key is appended, matching the
insertion-ordered JavaScript Map). -/
def updateStreamsKeys (markers : List String) (streams : List LiveStream) : List String :=
  let currentKeys := streams.map (fun s => s.sessionKey)
  let kept := markers.filter (fun k => currentKeys.contains k)
  streams.foldl (fun acc s => if acc.contains s.sessionKey then acc else acc ++ [s.sessionKey]) kept

/-- refresh from src/js/app.js lines 583-619, projected onto the marker key
state: it returns immediately outside live mode, otherwise it feeds whatever
getActiveStreams produced - including the empty list after a failed fetch -
to updateStreams. -/
noncomputable def refreshLive (mode : Mode) (markers : List String) (serverLat serverLon : ℝ)
    (geoLookup : String → Option Location) (now : Int) (outcome : FetchOutcome) : List String :=
  if mode = Mode.live then
    updateStreamsKeys markers (getActiveStreams serverLat serverLon geoLookup now outcome)
  else markers

/-! ## Historical location synthesis (getLocationFromIP, tautulli-api.js lines 293-312) -/

/-- randomOffset from getLocationFromIP: (Math.random() - 0.5) * 0.02, with
the Math.random draw passed in explicitly. -/
noncomputable def randomOffset (r : ℝ) : ℝ := (r - 0.5) * 0.02

/-- getLocationFromIP: a resolved geolocation is returned verbatim; otherwise
the session is placed at an independent random offset around the server in
each axis (r1 and r2 are the two Math.random draws, lat first). -/
noncomputable def getLocationFromIP (serverLat serverLon : ℝ) (geo : Option Location) (isLocal : Bool)
    (r1 r2 : ℝ) : Location :=
  match geo with
  | Option.some g => g
  | Option.none =>
      { lat := serverLat + randomOffset r1
        lon := serverLon + randomOffset r2
        city := if isLocal then "Local Network" else "Unknown"
        region := ""
        country := if isLocal then "LAN" else "Unknown"
        isp := if isLocal then "Local Network" else "Unknown ISP" }

/-- The locations getHistoryDays assigns to a batch: the session at position k
consumes the Math.random draws rand (2k) and rand (2k+1).  Each batch entry is
its resolved geolocation (or Option.none) together with its is-local flag. -/
noncomputable def assignHistoryLocations (serverLat serverLon : ℝ) (rand : Nat → ℝ)
    (batch : List (Option Location × Bool)) : List Location :=
  batch.enum.map (fun p =>
    getLocationFromIP serverLat serverLon p.2.1 p.2.2 (rand (2 * p.1)) (rand (2 * p.1 + 1)))

/-- The location both sessions of the C7 counterexample batch receive when
every Math.random draw returns one half. -/
noncomputable def c7loc : Location := getLocationFromIP 0 0 Option.none true (1 / 2) (1 / 2)

/-- The C7 counterexample batch: two local-network sessions, constant random
draws. -/
noncomputable def c7locs : List Location :=
  assignHistoryLocations 0 0 (fun _ => 1 / 2) [(Option.none, true), (Option.none, true)]

/-! ## Historical record processing (getHistoryDays, tautulli-api.js lines 314-415) -/

/-- A raw record of the upstream history endpoint (the fields the embedding
reads; times in seconds as delivered by the source). -/
structure RawHistory where
  user : Option String
  username : Option String
  friendly_name : Option String
  started : Int
  stopped : Option Int
  duration : Option Int
  paused_duration : Option Int
  deriving DecidableEq

/-- The stopTime computed by getHistoryDays: stopped * 1000 when stopped is
truthy, otherwise (started + duration-or-zero) * 1000. -/
def histStopTime (raw : RawHistory) : Int :=
  match raw.stopped with
  | Option.some s => if s = 0 then (raw.started + jsNumOrZero raw.duration) * 1000 else s * 1000
  | Option.none => (raw.started + jsNumOrZero raw.duration) * 1000

/-- The per-record mapping of getHistoryDays (lines 365-402), with the
already-resolved location passed in (the asynchronous geolocation lookup is an
external collaborator).  Note watchedDuration = duration - paused_duration,
in seconds, with no clipping. -/
def processHistorySession (loc : Location) (raw : RawHistory) : HSession :=
  { username := jsStrOr raw.user (jsStrOr raw.username (jsStrOr raw.friendly_name "Unknown User"))
    location := loc
    startTime := raw.started * 1000
    stopTime := histStopTime raw
    duration := jsNumOrZero raw.duration
    pausedDuration := jsNumOrZero raw.paused_duration
    watchedDuration := jsNumOrZero raw.duration - jsNumOrZero raw.paused_duration }

/-- The fixed length parameter of the history fetch request issued by
getHistoryDays (params.length in lines 325-330). -/
def historyRequestLength : Nat := 1000

/-- Model of the external get_history endpoint: the request is issued with
order_column date, order_dir desc and the fixed length limit, so given the
full server history ordered most-recent-first it returns at most
historyRequestLength leading records. -/
def fetchHistoryDesc (server : List RawHistory) : List RawHistory :=
  server.take historyRequestLength

/-- The client-side date filter of getHistoryDays (lines 340-347):
started * 1000 must lie in the closed range [startMs, endMs]. -/
def inDateRange (startMs endMs : Int) (r : RawHistory) : Bool :=
  decide (startMs ≤ r.started * 1000) && decide (r.started * 1000 ≤ endMs)

/-- The raw records getHistoryDays keeps: the fetched (limited) batch filtered
to the requested date range. -/
def selectHistoryInRange (server : List RawHistory) (startMs endMs : Int) : List RawHistory :=
  (fetchHistoryDesc server).filter (inDateRange startMs endMs)

/-- getHistoryDays: the selected records processed into sessions and sorted
ascending by startTime for chronological playback.  The resolve parameter
models getLocationFromIP applied to each record. -/
def getHistoryDays (resolve : RawHistory → Location) (server : List RawHistory)
    (startMs endMs : Int) : List HSession :=
  List.insertionSort (fun a b => a.startTime ≤ b.startTime)
    ((selectHistoryInRange server startMs endMs).map
      (fun r => processHistorySession (resolve r) r))

/-! ## History statistics aggregator (getHistoryStats, tautulli-api.js lines 417-467) -/

/-- The per-user record of the aggregator.  The location is set when the user
is first seen and never updated afterwards. -/
structure UserRec where
  sessions : Nat
  watchTime : Int
  location : Location

/-- The accumulator state of the getHistoryStats forEach loop.  The rollup
maps are modelled as total functions with default values (0 or Option.none),
matching the JavaScript or-zero reads; the two Sets are modelled as Finsets. -/
structure Stats where
  totalSessions : Nat
  totalWatchTime : Int
  uniqueUsers : Finset String
  uniqueCountries : Finset String
  byUser : String → Option UserRec
  byCountry : String → Nat
  byDay : String → Nat
  byHour : Nat → Nat

/-- The byUser update for one session: create the record (with the session
location) for an unseen user, else increment sessions and add the watch
time, keeping the stored location. -/
def userUpdate (loc : Location) (wd : Int) : Option UserRec → UserRec
  | Option.none => ⟨1, wd, loc⟩
  | Option.some r => ⟨r.sessions + 1, r.watchTime + wd, r.location⟩

/-- One iteration of the getHistoryStats forEach loop.  dayOf models the
locale date string of the start instant and hourOf its local hour; the
country block only runs when the country string is truthy (non-empty). -/
def statsStep (dayOf : Int → String) (hourOf : Int → Nat) (st : Stats) (s : HSession) : Stats :=
  { totalSessions := st.totalSessions
    totalWatchTime := st.totalWatchTime + s.watchedDuration
    uniqueUsers := insert s.username st.uniqueUsers
    uniqueCountries :=
      if s.location.country = "" then st.uniqueCountries
      else insert s.location.country st.uniqueCountries
    byCountry :=
      if s.location.country = "" then st.byCountry
      else fun c => if c = s.location.country then st.byCountry c + 1 else st.byCountry c
    byUser := fun u =>
      if u = s.username then Option.some (userUpdate s.location s.watchedDuration (st.byUser u))
      else st.byUser u
    byDay := fun d => if d = dayOf s.startTime then st.byDay d + 1 else st.byDay d
    byHour := fun h => if h = hourOf s.startTime then st.byHour h + 1 else st.byHour h }

/-- The initial accumulator: totalSessions is set to the batch length up
front, everything else is empty or zero. -/
def initStats (n : Nat) : Stats :=
  ⟨n, 0, ∅, ∅, fun _ => Option.none, fun _ => 0, fun _ => 0, fun _ => 0⟩

/-- The final statistics object: the two Sets are replaced by their sizes at
the end of getHistoryStats. -/
structure StatsFinal where
  totalSessions : Nat
  totalWatchTime : Int
  uniqueUsers : Nat
  uniqueCountries : Nat
  byUser : String → Option UserRec
  byCountry : String → Nat
  byDay : String → Nat
  byHour : Nat → Nat

/-- getHistoryStats from src/js/tautulli-api.js lines 417-467. -/
def getHistoryStats (dayOf : Int → String) (hourOf : Int → Nat)
    (history : List HSession) : StatsFinal :=
  let st := history.foldl (statsStep dayOf hourOf) (initStats history.length)
  ⟨st.totalSessions, st.totalWatchTime, st.uniqueUsers.card, st.uniqueCountries.card,
    st.byUser, st.byCountry, st.byDay, st.byHour⟩

/-- Modelled from the spec: the total watched duration formula of section 4.6,
the sum over sessions of max(0, stopTime - startTime - pausedDuration). -/
def specTotalWatchTime (l : List HSession) : Int :=
  (l.map (fun s => max 0 (s.stopTime - s.startTime - s.pausedDuration))).sum

/-! ## Location-free shadow of the aggregator (for order-independence) -/

/-- The per-user record without the stored location. -/
structure CoreUserRec where
  sessions : Nat
  watchTime : Int
  deriving DecidableEq

/-- Forget the stored location of a per-user record. -/
def coreOfUser (r : UserRec) : CoreUserRec := ⟨r.sessions, r.watchTime⟩

/-- The aggregator accumulator without per-user locations. -/
@[ext]
structure CoreStats where
  totalSessions : Nat
  totalWatchTime : Int
  uniqueUsers : Finset String
  uniqueCountries : Finset String
  byUser : String → Option CoreUserRec
  byCountry : String → Nat
  byDay : String → Nat
  byHour : Nat → Nat

/-- Forget the per-user locations of an accumulator. -/
def coreOf (st : Stats) : CoreStats :=
  ⟨st.totalSessions, st.totalWatchTime, st.uniqueUsers, st.uniqueCountries,
    fun u => (st.byUser u).map coreOfUser, st.byCountry, st.byDay, st.byHour⟩

/-- The location-free byUser update. -/
def coreUserUpdate (wd : Int) : Option CoreUserRec → CoreUserRec
  | Option.none => ⟨1, wd⟩
  | Option.some r => ⟨r.sessions + 1, r.watchTime + wd⟩

/-- The location-free aggregation step. -/
def coreStep (dayOf : Int → String) (hourOf : Int → Nat) (st : CoreStats) (s : HSession) :
    CoreStats :=
  { totalSessions := st.totalSessions
    totalWatchTime := st.totalWatchTime + s.watchedDuration
    uniqueUsers := insert s.username st.uniqueUsers
    uniqueCountries :=
      if s.location.country = "" then st.uniqueCountries
      else insert s.location.country st.uniqueCountries
    byCountry :=
      if s.location.country = "" then st.byCountry
      else fun c => if c = s.location.country then st.byCountry c + 1 else st.byCountry c
    byUser := fun u =>
      if u = s.username then Option.some (coreUserUpdate s.watchedDuration (st.byUser u))
      else st.byUser u
    byDay := fun d => if d = dayOf s.startTime then st.byDay d + 1 else st.byDay d
    byHour := fun h => if h = hourOf s.startTime then st.byHour h + 1 else st.byHour h }

/-- The final statistics without per-user locations. -/
structure CoreStatsFinal where
  totalSessions : Nat
  totalWatchTime : Int
  uniqueUsers : Nat
  uniqueCountries : Nat
  byUser : String → Option CoreUserRec
  byCountry : String → Nat
  byDay : String → Nat
  byHour : Nat → Nat

/-- Forget the per-user locations of the final statistics object. -/
def coreFinal (sf : StatsFinal) : CoreStatsFinal :=
  ⟨sf.totalSessions, sf.totalWatchTime, sf.uniqueUsers, sf.uniqueCountries,
    fun u => (sf.byUser u).map coreOfUser, sf.byCountry, sf.byDay, sf.byHour⟩

/-- Assemble the location-free final statistics from an accumulator. -/
def coreAssemble (c : CoreStats) : CoreStatsFinal :=
  ⟨c.totalSessions, c.totalWatchTime, c.uniqueUsers.card, c.uniqueCountries.card,
    c.byUser, c.byCountry, c.byDay, c.byHour⟩

/-! ## Further concrete inputs for counterexamples and witnesses -/

/-- A constant model of the locale date formatting, for concrete inputs. -/
def dayD : Int → String := fun _ => "d"

/-- A constant model of the local-hour extraction, for concrete inputs. -/
def hourH : Int → Nat := fun _ => 0

/-- A location in city A of country X. -/
def locA : Location := ⟨0, 0, "A", "", "X", ""⟩

/-- A location in city B of country X. -/
def locB : Location := ⟨0, 0, "B", "", "X", ""⟩

/-- A session of user u recorded at locA with one second watched. -/
def sA : HSession := ⟨"u", locA, 0, 0, 0, 0, 1⟩

/-- A session of user u recorded at locB with one second watched. -/
def sB : HSession := ⟨"u", locB, 0, 0, 0, 0, 1⟩

/-- A raw history record whose paused duration exceeds its duration. -/
def c3raw : RawHistory :=
  ⟨Option.some "u", Option.none, Option.none, 0, Option.some 100, Option.some 50,
    Option.some 60⟩

/-- A raw history record started at second 5. -/
def c10raw : RawHistory :=
  ⟨Option.some "u", Option.none, Option.none, 5, Option.none, Option.none, Option.none⟩

/-! # Theorems -/

/-- C1: the end-of-data test of the playback tick compares the incremented
index with the length of the historyData batch, not with the length of the
timeline.  On a batch of two sessions whose timeline has a single instant,
play() followed by advance() len(timeline) = 1 times leaves the controller
Playing with index 1 instead of returning it to Stopped with index 0. -/
theorem c1_code_eval :
    (createHistoryTimeline c1data).length = 1 ∧
    c1data.length = 2 ∧
    advanceN Mode.history c1data (createHistoryTimeline c1data)
        (createHistoryTimeline c1data).length (togglePlayback (PlaybackState.mk false 0)) =
      PlaybackState.mk true 1 := by
  decide

/-- C2: on the empty batch createHistoryTimeline pushes
timeline[timeline.length - 1], the JavaScript undefined value, and therefore
returns a one-element timeline instead of the empty timeline the
specification prescribes. -/
theorem c2_code_eval :
    createHistoryTimeline ([] : List HSession) = [Option.none] ∧
    createHistoryTimeline ([] : List HSession) ≠ [] := by
  decide

/-- Helper: updating the marker keys with an empty stream batch removes every
marker. -/
theorem updateStreamsKeys_nil (markers : List String) : updateStreamsKeys markers [] = [] := by
  unfold updateStreamsKeys
  simp [List.contains]

/-- C4 counterexample: a failed fetch does not leave the rendered state
untouched - a previously rendered marker is removed. -/
theorem c4_counterexample :
    refreshLive Mode.live ["k"] 0 0 (fun _ => Option.none) 0 FetchOutcome.fetchError ≠ ["k"] := by
  decide

/-- C4 (amended): when the session batch cannot be fetched (or the activity
object has no session list), getActiveStreams returns the empty batch, the
reconciler IS invoked with it, and every previously rendered marker is
removed - blank-on-error rather than stale-but-visible. -/
theorem c4_amended (markers : List String) (serverLat serverLon : ℝ)
    (geoLookup : String → Option Location) (now : Int) (outcome : FetchOutcome)
    (h : outcome = FetchOutcome.fetchError ∨ outcome = FetchOutcome.noSessions) :
    refreshLive Mode.live markers serverLat serverLon geoLookup now outcome = [] := by
  rcases h with h | h <;> subst h <;>
    simp [refreshLive, getActiveStreams, updateStreamsKeys_nil]

/-- C4 witness: the amended statement evaluated on a concrete marker state and
a failed fetch. -/
theorem c4_witness :
    refreshLive Mode.live ["k"] 0 0 (fun _ => Option.none) 0 FetchOutcome.fetchError = [] :=
  c4_amended ["k"] 0 0 (fun _ => Option.none) 0 FetchOutcome.fetchError (Or.inl rfl)

/-- C7 counterexample: in the historical path the synthesized placement is
random, not the deterministic ring: with both Math.random draws returning one
half for both sessions, the two no-geolocation sessions of the batch receive
exactly the same synthesized coordinate, so the pairwise-distinct-coordinates
part of the claim fails. -/
theorem c7_counterexample :
    c7locs = [c7loc, c7loc] ∧
    ¬ List.Pairwise (fun a b : Location => ¬(a.lat = b.lat ∧ a.lon = b.lon)) c7locs := by
  constructor
  · rfl
  · intro h
    rw [show c7locs = [c7loc, c7loc] from rfl] at h
    exact (List.pairwise_cons.mp h).1 c7loc (List.mem_cons_self c7loc []) ⟨rfl, rfl⟩

/-- C7 (amended): the LIVE path does satisfy the claim over exact real
arithmetic: every synthesized live location lies on the ring of radius 0.01
around the server, and two distinct batch indices always receive distinct
coordinates. -/
theorem c7_amended (L O : ℝ) (b : Bool) (n i j : Nat)
    (hi : i < n) (hj : j < n) (hij : i ≠ j) :
    ((synthLiveLocation L O b i n).lat - L) ^ 2 + ((synthLiveLocation L O b i n).lon - O) ^ 2
        = (0.01 : ℝ) ^ 2 ∧
    ¬((synthLiveLocation L O b i n).lat = (synthLiveLocation L O b j n).lat ∧
      (synthLiveLocation L O b i n).lon = (synthLiveLocation L O b j n).lon) := by
  have hn : 0 < n := lt_of_le_of_lt (Nat.zero_le i) hi
  have hn' : (0 : ℝ) < n := by exact_mod_cast hn
  constructor
  · simp only [synthLiveLocation]
    have expand :
        (L + 0.01 * Real.sin (2 * Real.pi * i / n) - L) ^ 2 +
          (O + 0.01 * Real.cos (2 * Real.pi * i / n) - O) ^ 2 =
        (0.01 : ℝ) ^ 2 *
          (Real.sin (2 * Real.pi * i / n) ^ 2 + Real.cos (2 * Real.pi * i / n) ^ 2) := by
      ring
    rw [expand, Real.sin_sq_add_cos_sq, mul_one]
  · rintro ⟨hlat, hlon⟩
    simp only [synthLiveLocation] at hlat hlon
    have hs : Real.sin (2 * Real.pi * i / n) = Real.sin (2 * Real.pi * j / n) := by
      have h1 : (0.01 : ℝ) * Real.sin (2 * Real.pi * i / n)
          = 0.01 * Real.sin (2 * Real.pi * j / n) := by linarith
      exact mul_left_cancel₀ (by norm_num) h1
    have hc : Real.cos (2 * Real.pi * i / n) = Real.cos (2 * Real.pi * j / n) := by
      have h1 : (0.01 : ℝ) * Real.cos (2 * Real.pi * i / n)
          = 0.01 * Real.cos (2 * Real.pi * j / n) := by linarith
      exact mul_left_cancel₀ (by norm_num) h1
    have hcos1 : Real.cos (2 * Real.pi * i / n - 2 * Real.pi * j / n) = 1 := by
      rw [Real.cos_sub, hs, hc]
      have hpyth := Real.sin_sq_add_cos_sq (2 * Real.pi * j / n)
      nlinarith [hpyth]
    have hi' : (i : ℝ) < n := by exact_mod_cast hi
    have hj' : (j : ℝ) < n := by exact_mod_cast hj
    have hi0 : (0 : ℝ) ≤ i := Nat.cast_nonneg i
    have hj0 : (0 : ℝ) ≤ j := Nat.cast_nonneg j
    have hpi := Real.pi_pos
    have hbi : 2 * Real.pi * i / n < 2 * Real.pi := by
      rw [div_lt_iff₀ hn']
      nlinarith
    have hbj : 2 * Real.pi * j / n < 2 * Real.pi := by
      rw [div_lt_iff₀ hn']
      nlinarith
    have hbi0 : 0 ≤ 2 * Real.pi * i / n := by positivity
    have hbj0 : 0 ≤ 2 * Real.pi * j / n := by positivity
    have hx0 : 2 * Real.pi * i / n - 2 * Real.pi * j / n = 0 :=
      (Real.cos_eq_one_iff_of_lt_of_lt (by linarith) (by linarith)).mp hcos1
    have heq : 2 * Real.pi * (i : ℝ) / n = 2 * Real.pi * (j : ℝ) / n := sub_eq_zero.mp hx0
    have hfrac : 2 * Real.pi / n * (i : ℝ) = 2 * Real.pi / n * (j : ℝ) := by
      rw [div_mul_eq_mul_div, div_mul_eq_mul_div]
      exact heq
    have hcoef : 2 * Real.pi / n ≠ 0 := by positivity
    have hij' : (i : ℝ) = j := mul_left_cancel₀ hcoef hfrac
    exact hij (by exact_mod_cast hij')

/-- C7 witness: the amended live-path statement evaluated at batch size 2,
indices 0 and 1 around the origin. -/
theorem c7_witness :
    (0 < 2 ∧ 1 < 2 ∧ (0 : Nat) ≠ 1) ∧
    ¬((synthLiveLocation 0 0 false 0 2).lat = (synthLiveLocation 0 0 false 1 2).lat ∧
      (synthLiveLocation 0 0 false 0 2).lon = (synthLiveLocation 0 0 false 1 2).lon) :=
  ⟨⟨by decide, by decide, by decide⟩,
    (c7_amended 0 0 false 2 0 1 (by decide) (by decide) (by decide)).2⟩

/-- C8: calculateOffset agrees with the specification formula - the zero
offset for a single record, otherwise dLat = r sin(2 pi index / total) and
dLon = 1.5 r cos(2 pi index / total) on the fixed ring of radius r. -/
theorem c8_offset (index total : Nat) (_h : 1 ≤ total) :
    calculateOffset index total = offsetSpecRing index total := by
  unfold calculateOffset offsetSpecRing
  split_ifs with h1
  · rfl
  · have hcomm : offsetRadius * Real.cos (2 * Real.pi * index / total) * 1.5
        = 1.5 * (offsetRadius * Real.cos (2 * Real.pi * index / total)) := by ring
    rw [hcomm]

/-- C8 witness: the agreement evaluated at index 0, total 1. -/
theorem c8_witness : 1 ≤ 1 ∧ calculateOffset 0 1 = offsetSpecRing 0 1 :=
  ⟨by decide, c8_offset 0 1 (by decide)⟩

/-- Helper: the aggregation fold adds each watchedDuration to the running
total. -/
theorem totalWatchTime_foldl (dayOf : Int → String) (hourOf : Int → Nat) :
    ∀ (l : List HSession) (st : Stats),
      (l.foldl (statsStep dayOf hourOf) st).totalWatchTime
        = st.totalWatchTime + (l.map (fun s => s.watchedDuration)).sum := by
  intro l
  induction l with
  | nil => intro st; simp
  | cons a l ih =>
      intro st
      simp only [List.foldl_cons, List.map_cons, List.sum_cons]
      rw [ih]
      simp only [statsStep]
      ring

/-- C3 counterexample: for a record whose paused duration exceeds its
duration, the aggregated total watch time is negative (duration minus paused
duration, unclipped) while the specification formula based on
stopTime - startTime - pausedDuration clipped at zero is positive. -/
theorem c3_counterexample :
    (getHistoryStats dayD hourH [processHistorySession locA c3raw]).totalWatchTime ≠
      specTotalWatchTime [processHistorySession locA c3raw] := by
  decide

/-- C3 (amended): the aggregated total watch time is the plain sum of the
per-session watchedDuration values, and for processed history records
watchedDuration is duration - paused_duration (seconds, no clipping, not
derived from stopTime - startTime). -/
theorem c3_amended :
    (∀ (dayOf : Int → String) (hourOf : Int → Nat) (l : List HSession),
        (getHistoryStats dayOf hourOf l).totalWatchTime
          = (l.map (fun s => s.watchedDuration)).sum) ∧
    (∀ (loc : Location) (raw : RawHistory),
        (processHistorySession loc raw).watchedDuration
          = raw.duration.getD 0 - raw.paused_duration.getD 0) := by
  have hjs : ∀ a : Option Int, jsNumOrZero a = a.getD 0 := by
    intro a
    cases a with
    | none => rfl
    | some v =>
        simp only [jsNumOrZero, jsNumOr, Option.getD_some]
        split_ifs with h
        · omega
        · rfl
  constructor
  · intro dayOf hourOf l
    simp only [getHistoryStats]
    rw [totalWatchTime_foldl]
    simp [initStats]
  · intro loc raw
    simp only [processHistorySession, hjs]

/-- Helper: forgetting the location commutes with the byUser update. -/
theorem coreOfUser_update (loc : Location) (wd : Int) (r : Option UserRec) :
    coreOfUser (userUpdate loc wd r) = coreUserUpdate wd (r.map coreOfUser) := by
  cases r <;> rfl

/-- Helper: forgetting the locations commutes with one aggregation step. -/
theorem coreOf_statsStep (dayOf : Int → String) (hourOf : Int → Nat) (st : Stats)
    (s : HSession) :
    coreOf (statsStep dayOf hourOf st s) = coreStep dayOf hourOf (coreOf st) s := by
  refine CoreStats.ext rfl rfl rfl rfl ?_ rfl rfl rfl
  funext u
  simp only [coreOf, statsStep, coreStep]
  by_cases h : u = s.username
  · simp [h, coreOfUser_update]
  · simp [h]

/-- Helper: forgetting the locations commutes with the aggregation fold. -/
theorem coreOf_foldl (dayOf : Int → String) (hourOf : Int → Nat) :
    ∀ (l : List HSession) (st : Stats),
      coreOf (l.foldl (statsStep dayOf hourOf) st)
        = l.foldl (coreStep dayOf hourOf) (coreOf st) := by
  intro l
  induction l with
  | nil => intro st; rfl
  | cons a l ih =>
      intro st
      simp only [List.foldl_cons]
      rw [ih, coreOf_statsStep]

/-- Helper: the location-free aggregation step is left commutative. -/
theorem coreStep_comm (dayOf : Int → String) (hourOf : Int → Nat) (st : CoreStats)
    (a b : HSession) :
    coreStep dayOf hourOf (coreStep dayOf hourOf st a) b
      = coreStep dayOf hourOf (coreStep dayOf hourOf st b) a := by
  refine CoreStats.ext rfl ?_ ?_ ?_ ?_ ?_ ?_ ?_
  · simp only [coreStep]
    ring
  · simp only [coreStep]
    exact Finset.Insert.comm _ _ _
  · simp only [coreStep]
    split_ifs <;> first | rfl | exact Finset.Insert.comm _ _ _
  · funext u
    simp only [coreStep]
    split_ifs with h1 h2 h3
    · cases hr : st.byUser u
      · simp only [coreUserUpdate, Option.some.injEq, CoreUserRec.mk.injEq]
        exact ⟨trivial, by omega⟩
      · simp only [coreUserUpdate, Option.some.injEq, CoreUserRec.mk.injEq]
        exact ⟨trivial, by omega⟩
    · rfl
    · rfl
    · rfl
  · funext c
    simp only [coreStep, ite_apply]
    split_ifs <;> rfl
  · funext d
    simp only [coreStep]
    split_ifs <;> omega
  · funext hh
    simp only [coreStep]
    split_ifs <;> omega

/-- Helper: a fold by a left-commutative function is invariant under
permutations of the list. -/
theorem foldl_comm_perm {α β : Type _} (f : β → α → β)
    (hf : ∀ st a b, f (f st a) b = f (f st b) a) :
    ∀ {l1 l2 : List α}, l1.Perm l2 → ∀ st : β, l1.foldl f st = l2.foldl f st := by
  intro l1 l2 p
  induction p with
  | nil => intro st; rfl
  | cons x p ih => intro st; simp only [List.foldl_cons]; exact ih (f st x)
  | swap x y l => intro st; simp only [List.foldl_cons]; rw [hf]
  | trans p q ih1 ih2 => intro st; rw [ih1 st, ih2 st]

/-- C9 counterexample: the aggregator is not permutation-invariant as claimed,
because the recorded per-user location is the location of that user's first
session in input order: swapping two sessions of the same user at different
locations changes byUser. -/
theorem c9_counterexample :
    List.Perm [sA, sB] [sB, sA] ∧
    getHistoryStats dayD hourH [sA, sB] ≠ getHistoryStats dayD hourH [sB, sA] := by
  refine ⟨List.Perm.swap sB sA [], fun h => ?_⟩
  have e1 : ((getHistoryStats dayD hourH [sA, sB]).byUser "u").map (fun r => r.location.city)
      = Option.some "A" := rfl
  have e2 : ((getHistoryStats dayD hourH [sB, sA]).byUser "u").map (fun r => r.location.city)
      = Option.some "B" := rfl
  rw [h, e2] at e1
  exact absurd e1 (by decide)

/-- C9 (amended): every aggregated quantity except the stored per-user
location is order-independent: for any permutation of the batch the total
counts, total watch time, unique-user and unique-country counts, per-country,
per-day and per-hour rollups and the per-user session counts and watch times
coincide. -/
theorem c9_amended (dayOf : Int → String) (hourOf : Int → Nat) (l1 l2 : List HSession)
    (h : l1.Perm l2) :
    coreFinal (getHistoryStats dayOf hourOf l1) = coreFinal (getHistoryStats dayOf hourOf l2) := by
  have hlen := h.length_eq
  have key : coreOf (l1.foldl (statsStep dayOf hourOf) (initStats l1.length))
      = coreOf (l2.foldl (statsStep dayOf hourOf) (initStats l2.length)) := by
    rw [coreOf_foldl, coreOf_foldl, hlen]
    exact foldl_comm_perm _ (coreStep_comm dayOf hourOf) h _
  have e1 : coreFinal (getHistoryStats dayOf hourOf l1)
      = coreAssemble (coreOf (l1.foldl (statsStep dayOf hourOf) (initStats l1.length))) := rfl
  have e2 : coreFinal (getHistoryStats dayOf hourOf l2)
      = coreAssemble (coreOf (l2.foldl (statsStep dayOf hourOf) (initStats l2.length))) := rfl
  rw [e1, e2, key]

/-- C9 witness: the amended statement evaluated on a concrete two-session
batch and its transposition. -/
theorem c9_witness :
    coreFinal (getHistoryStats dayD hourH [sA, sB])
      = coreFinal (getHistoryStats dayD hourH [sB, sA]) :=
  c9_amended dayD hourH [sA, sB] [sB, sA] (List.Perm.swap sB sA [])

/-- C10: the history fetch is issued with the fixed length limit 1000 (ordered
by date descending), every selected raw record comes from the first 1000
records of the upstream history, and every session of the returned batch is
the processed image of one of those records - so anything older than the
1000th most recent record is absent regardless of the requested day range. -/
theorem c10_limit :
    historyRequestLength = 1000 ∧
    (∀ (server : List RawHistory) (startMs endMs : Int) (r : RawHistory),
        r ∈ selectHistoryInRange server startMs endMs → r ∈ server.take 1000) ∧
    (∀ (resolve : RawHistory → Location) (server : List RawHistory) (startMs endMs : Int)
        (s : HSession), s ∈ getHistoryDays resolve server startMs endMs →
          ∃ r, r ∈ server.take 1000 ∧ s = processHistorySession (resolve r) r) := by
  refine ⟨rfl, ?_, ?_⟩
  · intro server startMs endMs r hr
    simp only [selectHistoryInRange, fetchHistoryDesc, historyRequestLength] at hr
    exact (List.mem_filter.mp hr).1
  · intro resolve server startMs endMs s hs
    simp only [getHistoryDays] at hs
    have hmem : s ∈ (selectHistoryInRange server startMs endMs).map
        (fun r => processHistorySession (resolve r) r) :=
      (List.perm_insertionSort _ _).mem_iff.mp hs
    obtain ⟨r, hr, he⟩ := List.mem_map.mp hmem
    simp only [selectHistoryInRange, fetchHistoryDesc, historyRequestLength] at hr
    exact ⟨r, (List.mem_filter.mp hr).1, he.symm⟩

/-- C10 witness: the membership statement evaluated on a one-record server
history. -/
theorem c10_witness : c10raw ∈ ([c10raw] : List RawHistory).take 1000 :=
  c10_limit.2.1 [c10raw] 0 1000000 c10raw (by decide)

/-- C5 counterexample: seeking to the out-of-range index 5 on a three-entry
timeline neither clamps the index (which stays 0 instead of becoming 2) nor
emits any snapshot. -/
theorem c5_counterexample :
    (seekPlayback Mode.history [] tl3 (PlaybackState.mk false 0) 5).1.currentIndex
        ≠ clampIdx 5 tl3.length ∧
    (seekPlayback Mode.history [] tl3 (PlaybackState.mk false 0) 5).2 = Emission.nothing :=
  ⟨by decide, rfl⟩

/-- C5 (amended): seek(i) stores the index and emits the snapshot only when
0 <= i < len(timeline) and not (history mode with i = 0); in history mode
seek(0) renders all sessions and leaves the state unchanged; any other i is
ignored - the state is unchanged and nothing is emitted (no clamping). -/
theorem c5_amended (mode : Mode) (data : List HSession) (timeline : List JSNum)
    (st : PlaybackState) (i : Int) :
    ((0 ≤ i ∧ i < (timeline.length : Int) ∧ ¬(mode = Mode.history ∧ i = 0)) →
      (seekPlayback mode data timeline st i).1.currentIndex = i ∧
      (seekPlayback mode data timeline st i).2 =
        Emission.frame (activeSessionsAt data (timeline.getD i.toNat Option.none))
          (timeline.getD i.toNat Option.none)) ∧
    ((mode = Mode.history ∧ i = 0) →
      seekPlayback mode data timeline st i = (st, Emission.allSessions)) ∧
    (¬(mode = Mode.history ∧ i = 0) → (i < 0 ∨ (timeline.length : Int) ≤ i) →
      seekPlayback mode data timeline st i = (st, Emission.nothing)) := by
  unfold seekPlayback showHistoryFrame
  refine ⟨?_, ?_, ?_⟩
  · rintro ⟨h0, hlen, hng⟩
    rw [if_neg hng, if_pos ⟨h0, hlen⟩]
    exact ⟨rfl, rfl⟩
  · intro hg
    rw [if_pos hg]
  · intro hng hout
    have hcond : ¬(0 ≤ i ∧ i < (timeline.length : Int)) := by
      rintro ⟨ha, hb⟩
      rcases hout with h | h <;> omega
    rw [if_neg hng, if_neg hcond]

/-- C5 witness: the amended statement evaluated at an in-range seek in live
mode. -/
theorem c5_witness :
    ((0 : Int) ≤ 0 ∧ (0 : Int) < (([Option.some 5] : List JSNum).length : Int) ∧
      ¬(Mode.live = Mode.history ∧ (0 : Int) = 0)) ∧
    (seekPlayback Mode.live [] [Option.some 5] (PlaybackState.mk false 0) 0).1.currentIndex = 0 ∧
    (seekPlayback Mode.live [] [Option.some 5] (PlaybackState.mk false 0) 0).2 =
      Emission.frame
        (activeSessionsAt [] (([Option.some 5] : List JSNum).getD ((0 : Int).toNat) Option.none))
        (([Option.some 5] : List JSNum).getD ((0 : Int).toNat) Option.none) :=
  ⟨by decide,
    (c5_amended Mode.live [] [Option.some 5] (PlaybackState.mk false 0) 0).1 (by decide)⟩

/-- C6: when the frame branch of showHistoryFrame runs at a valid timeline
index holding instant t, the emitted active-session snapshot contains exactly
the sessions with startTime <= t <= stopTime (closed on both ends); in
particular a session with startTime = stopTime = t is included. -/
theorem c6_snapshot (mode : Mode) (data : List HSession) (timeline : List JSNum)
    (st : PlaybackState) (i : Nat) (t : Int)
    (ht : timeline.get? i = Option.some (Option.some t))
    (hb : ¬(mode = Mode.history ∧ (i : Int) = 0)) :
    (showHistoryFrame mode data timeline st (i : Int)).2 =
      Emission.frame (activeSessionsAt data (Option.some t)) (Option.some t) ∧
    (∀ s, s ∈ activeSessionsAt data (Option.some t) ↔
      s ∈ data ∧ s.startTime ≤ t ∧ t ≤ s.stopTime) ∧
    (∀ s, s ∈ data → s.startTime = t → s.stopTime = t →
      s ∈ activeSessionsAt data (Option.some t)) := by
  have hlt : i < timeline.length := by
    by_contra hle
    rw [List.get?_eq_none.mpr (Nat.le_of_not_lt hle)] at ht
    exact Option.noConfusion ht
  have hgd : timeline.getD ((i : Int)).toNat Option.none = Option.some t := by
    have hcast : ((i : Int)).toNat = i := Int.toNat_natCast i
    rw [hcast, List.getD_eq_get?, ht]
    rfl
  refine ⟨?_, ?_, ?_⟩
  · unfold showHistoryFrame
    rw [if_neg hb, if_pos ⟨Int.natCast_nonneg i, by exact_mod_cast hlt⟩]
    simp only [hgd]
  · intro s
    simp [activeSessionsAt, List.mem_filter, jsLE, and_assoc]
  · intro s hs h1 h2
    simp only [activeSessionsAt, List.mem_filter, Bool.and_eq_true, jsLE, decide_eq_true_eq]
    exact ⟨hs, by omega, by omega⟩

/-- C6 witness: the snapshot characterization evaluated on a one-session
batch whose session starts and stops exactly at the timeline instant. -/
theorem c6_witness :
    ([Option.some 5] : List JSNum).get? 0 = Option.some (Option.some 5) ∧
    (showHistoryFrame Mode.live [sB5] [Option.some 5] (PlaybackState.mk false 0)
        ((0 : Nat) : Int)).2 =
      Emission.frame (activeSessionsAt [sB5] (Option.some 5)) (Option.some 5) :=
  ⟨rfl,
    (c6_snapshot Mode.live [sB5] [Option.some 5] (PlaybackState.mk false 0) 0 5 rfl
      (by decide)).1⟩

end Tautulli
